import Mathlib

set_option maxHeartbeats 1000000

/-!
Formal model (shallow embedding) of the posthog-rs client core.  The crate
root src/lib.rs declares no submodules (no mod client, no mod event), so it
is a complete, self-contained implementation and the live program;
src/event.rs, src/client/mod.rs and src/client/blocking.rs are unreferenced
duplicates that the build never compiles.  The event, exception, properties,
envelope and panic-hook code embedded below is taken from src/lib.rs and is
textually identical in src/event.rs (which some definition comments also
cite); the client operations, the options and the timeout are taken from
src/lib.rs alone, where the dead module files diverge from it.

External crates are modelled at their interface boundary, exactly where the
source calls them: serde_json serialization results, the semver parse result,
the os_info lookup, the uuid generator and the reqwest transport are explicit
parameters, and a small faithful model is written for the std string Debug
formatter.
-/

namespace PosthogRs

/-- JSON values, the model of serde_json Value.  Numbers are modelled as
integers, which covers every number this library ever stores (the u64
major, minor and patch components of a semantic version). -/
inductive JValue where
  | null
  | bool (b : Bool)
  | num (n : Int)
  | str (s : String)
  | arr (elems : List JValue)
  | obj (fields : List (String × JValue))

/-- Insert into an association list, overwriting the binding of the key when
present and appending otherwise: the model of HashMap insert from
std collections, which replaces the value stored under an existing key. -/
def insertKV (m : List (String × JValue)) (k : String) (v : JValue) :
    List (String × JValue) :=
  match m with
  | [] => [(k, v)]
  | (k1, v1) :: rest =>
    if k1 = k then (k, v) :: rest else (k1, v1) :: insertKV rest k v

/-- Lookup in an association list: the model of HashMap get. -/
def lookupKV (m : List (String × JValue)) (k : String) : Option JValue :=
  match m with
  | [] => none
  | (k1, v1) :: rest => if k1 = k then some v1 else lookupKV rest k

/-- Model of the Rust std Debug formatter applied to one character inside a
string literal: the named escapes for quote, backslash, newline, carriage
return, tab and the nul character, and a unicode escape for the remaining
control characters.  Printable characters are emitted unchanged. -/
def rustEscapeChar (c : Char) : String :=
  if c = '"' then "\\\""
  else if c = '\\' then "\\\\"
  else if c = '\n' then "\\n"
  else if c = '\r' then "\\r"
  else if c = '\t' then "\\t"
  else if c = '\x00' then "\\0"
  else if c.toNat < 32 ∨ c.toNat = 127 then
    "\\u\x7b" ++ String.mk (Nat.toDigits 16 c.toNat) ++ "\x7d"
  else String.singleton c

/-- Model of the Rust std Debug formatter for a string, as produced by
format with the question-mark specifier: the string is wrapped in double
quotes with every character escaped by rustEscapeChar. -/
def rustDebugString (s : String) : String :=
  "\"" ++ String.join (s.data.map rustEscapeChar) ++ "\""

/-- Worker for rustSplit: walks the characters, cutting a new piece at every
separator character, accumulating the current piece in reverse. -/
def splitAux (seps : List Char) : List Char → List Char → List (List Char)
  | [], acc => [acc.reverse]
  | c :: cs, acc =>
    if seps.contains c then acc.reverse :: splitAux seps cs []
    else splitAux seps cs (c :: acc)

/-- Model of the Rust str split method applied to a slice of characters:
yields the maximal pieces between separator occurrences, so the result is
never empty and the first piece is the prefix before the first separator. -/
def rustSplit (seps : List Char) (s : String) : List String :=
  (splitAux seps s.data []).map String.mk

/-- Build-time constants of the crate: the values the env macro expands to
for CARGO_PKG_NAME and CARGO_PKG_VERSION.  The Cargo manifest is not part of
the sources, so both strings are parameters of the model. -/
structure BuildEnv where
  cargoPkgName : String
  cargoPkgVersion : String

/-- Host information returned by the external os_info crate at
Properties construction time. -/
structure OsInfo where
  osType : String
  osVersion : String

/-- Opaque stand-in for chrono NaiveDateTime: the library never constructs a
timestamp, it only stores and copies an optional one, so any inhabited type
is an adequate model. -/
abbrev NaiveDateTime := Int

/-- The properties envelope from src/event.rs. -/
structure Properties where
  distinct_id : String
  props : List (String × JValue)
  lib : String
  lib_version : String
  os : String
  os_version : String
  exception_level : Option String
  exception_list : Option JValue

/-- Properties construction from src/event.rs: resolves the os_info lookup
(here a parameter), fills the fixed library fields from the build
environment, and starts with an empty props map and absent exception
fields. -/
def Properties.new (env : BuildEnv) (info : OsInfo) (distinct_id : String) :
    Properties :=
  { distinct_id := distinct_id
    props := []
    lib := env.cargoPkgName
    lib_version := env.cargoPkgVersion
    os := info.osType
    os_version := info.osVersion
    exception_level := none
    exception_list := none }

/-- The error enumeration from src/lib.rs. -/
inductive Error where
  | Connection (msg : String)
  | Serialization (msg : String)
  | Panic (msg : String)

/-- The Event structure from src/event.rs. -/
structure Event where
  event : String
  properties : Properties
  timestamp : Option NaiveDateTime

/-- Event construction from src/event.rs. -/
def Event.new (env : BuildEnv) (info : OsInfo) (event : String)
    (distinct_id : String) : Event :=
  { event := event
    properties := Properties.new env info distinct_id
    timestamp := none }

/-- The insert_prop method of the EventBase impl for Event in src/event.rs.
The serde_json to_value call on the user value is external, so the function
receives its outcome: either a JSON value or an error message.  The Rust
method mutates self and returns a Result; the model returns the pair of the
result and the updated event. -/
def Event.insert_prop (self : Event) (key : String)
    (serialized : Except String JValue) : Except Error Unit × Event :=
  match serialized with
  | .error e => (.error (.Serialization e), self)
  | .ok as_json =>
    (.ok (), { self with properties :=
      { self.properties with
          props := insertKV self.properties.props key as_json } })

/-- Model of the Rust str trim method: drop leading and trailing whitespace
characters.  Whitespace is the ascii class (space, tab, carriage return,
line feed), which is what every string reaching trim in this library can
contain at its ends. -/
def rustTrim (s : String) : String :=
  String.mk
    (((s.data.dropWhile Char.isWhitespace).reverse.dropWhile
      Char.isWhitespace).reverse)

/-- A generic failure value (a dyn std error trait object) as this library
sees it: only its Display string and its Debug string are ever consulted
(src/event.rs consumes nothing else from the reference it receives). -/
structure Failure where
  display : String
  debug : String

/-- The Exception structure from src/event.rs. -/
structure Exception where
  properties : Properties
  timestamp : Option NaiveDateTime

/-- The separator characters of the split call in parse_exception_type in
src/event.rs: space, opening parenthesis, opening brace, carriage return
and line feed. -/
def splitChars : List Char := [' ', '(', '\x7b', '\r', '\n']

/-- parse_exception_type from src/event.rs: when the Debug representation of
the failure equals the Debug formatting of its Display string the type name
is the literal Error; otherwise the first piece of the Debug representation
split on splitChars, trimmed.  The headI models next on the split iterator
followed by unwrap, which never fails because split yields at least one
piece. -/
def Exception.parse_exception_type (exception : Failure) : String :=
  let dbg := exception.debug
  let value := exception.display
  if dbg = rustDebugString value then "Error"
  else rustTrim ((rustSplit splitChars dbg).headI)

/-- with_exception_level from src/event.rs. -/
def Exception.with_exception_level (self : Exception)
    (exception_level : Option String) : Exception :=
  { self with properties :=
    { self.properties with exception_level := exception_level } }

/-- set_exception_list from src/event.rs: builds the single exception
descriptor object with its type, value and mechanism fields and stores the
one-element array. -/
def Exception.set_exception_list (self : Exception) (exception : Failure) :
    Exception :=
  let mechanism : List (String × JValue) :=
    [("handled", .bool true), ("synthetic", .bool false)]
  let exception_info : List (String × JValue) :=
    [("type", .str (Exception.parse_exception_type exception)),
     ("value", .str exception.display),
     ("mechanism", .obj mechanism)]
  { self with properties :=
    { self.properties with
        exception_list := some (.arr [.obj exception_info]) } }

/-- Exception construction from src/event.rs. -/
def Exception.new (env : BuildEnv) (info : OsInfo) (exception : Failure)
    (distinct_id : String) : Exception :=
  (({ properties := Properties.new env info distinct_id
      timestamp := none : Exception }).with_exception_level
    (some "error")).set_exception_list exception

/-- to_event from src/event.rs: builds a fresh Event named with the
exception literal, then overwrites its timestamp and its whole properties
envelope with those of the exception. -/
def Exception.to_event (self : Exception) (env : BuildEnv) (info : OsInfo) :
    Event :=
  let event := Event.new env info "$exception" self.properties.distinct_id
  { event with timestamp := self.timestamp, properties := self.properties }

/-- The insert_prop method of the EventBase impl for Exception in
src/event.rs, modelled exactly like the Event one. -/
def Exception.insert_prop (self : Exception) (key : String)
    (serialized : Except String JValue) : Except Error Unit × Exception :=
  match serialized with
  | .error e => (.error (.Serialization e), self)
  | .ok as_json =>
    (.ok (), { self with properties :=
      { self.properties with
          props := insertKV self.properties.props key as_json } })

/-- A parsed semantic version as the external semver crate returns it. -/
structure SemVer where
  major : Nat
  minor : Nat
  patch : Nat

/-- The transport envelope from src/event.rs. -/
structure InnerEvent where
  api_key : String
  event : String
  properties : Properties
  timestamp : Option NaiveDateTime

/-- InnerEvent construction from src/event.rs: takes the properties of the
event, inserts the fixed library name and the release string (overwriting
same-named keys), and, when the release string parses as a semantic
version, also the three numeric version components.  The semver parse is
the external crate, passed as a function parameter. -/
def InnerEvent.new (env : BuildEnv) (semverParse : String → Option SemVer)
    (event : Event) (api_key : String) : InnerEvent :=
  let properties := event.properties
  let props1 := insertKV properties.props "$lib_name" (.str "posthog-rs")
  let version_str := env.cargoPkgVersion
  let props2 := insertKV props1 "$lib_version" (.str version_str)
  let props3 :=
    match semverParse version_str with
    | some version =>
      insertKV (insertKV (insertKV props2
        "$lib_version__major" (.num (version.major : Int)))
        "$lib_version__minor" (.num (version.minor : Int)))
        "$lib_version__patch" (.num (version.patch : Int))
    | none => props2
  { api_key := api_key
    event := event.event
    properties := { properties with props := props3 }
    timestamp := event.timestamp }

/-- The configuration snapshot from src/lib.rs.  The boxed callback Fn on a
mutable Exception reference is modelled as an optional function from
Exception to Exception.  The live ClientOptions carries no timeout field:
the client uses the hardcoded TIMEOUT constant instead. -/
structure ClientOptions where
  api_endpoint : String
  api_key : String
  default_distinct_id : String
  enable_panic_capturing : Bool
  on_panic_exception : Option (Exception → Exception)

/-- One HTTP request as the client hands it to reqwest: the post url, the
content type header value and the body. -/
structure HttpRequest where
  url : String
  contentType : String
  body : String

/-- The hardcoded request timeout constant from src/lib.rs, in
milliseconds; the comment beside it in the source says it should be
specified by the user. -/
def TIMEOUT : Nat := 800

/-- The timeout, in milliseconds, that the client function in src/lib.rs
configures on the reqwest client it builds: the TIMEOUT constant,
independent of the options. -/
def client_request_timeout_ms : Nat := TIMEOUT

/-- Outcome of one call of a capture operation of the live client: a normal
return carrying the Result, or a runtime panic.  The expect call on the
envelope serialization in capture panics with the expect text (the runtime
message also appends the Debug form of the serde error; the model keeps the
expect text). -/
inductive CaptureResult where
  | returned (r : Except Error Unit)
  | panicked (msg : String)

/-- capture from src/lib.rs: wrap the event in the transport envelope,
serialize it (toJsonString is the external serde_json call on the
envelope) and call expect on the result, so a serialization failure panics
instead of returning an error; then post the payload with the json content
type through the transport (send is the external reqwest call), mapping a
transport failure to the Connection error. -/
def Client.capture (env : BuildEnv) (semverParse : String → Option SemVer)
    (opts : ClientOptions)
    (toJsonString : InnerEvent → Except String String)
    (send : HttpRequest → Except String Unit)
    (event : Event) : CaptureResult :=
  let inner_event := InnerEvent.new env semverParse event opts.api_key
  match toJsonString inner_event with
  | .error _ => .panicked "unwrap here is safe"
  | .ok payload =>
    match send { url := opts.api_endpoint
                 contentType := "application/json"
                 body := payload } with
    | .error e => .returned (.error (.Connection e))
    | .ok _ => .returned (.ok ())

/-- capture_batch from src/lib.rs: capture every event in order, one
request per event, returning at the first capture that errs (the
question-mark operator) and propagating a panic raised inside capture. -/
def Client.capture_batch (env : BuildEnv)
    (semverParse : String → Option SemVer) (opts : ClientOptions)
    (toJsonString : InnerEvent → Except String String)
    (send : HttpRequest → Except String Unit) :
    List Event → CaptureResult
  | [] => .returned (.ok ())
  | event :: rest =>
    match Client.capture env semverParse opts toJsonString send event with
    | .panicked m => .panicked m
    | .returned (.error err) => .returned (.error err)
    | .returned (.ok _) =>
      Client.capture_batch env semverParse opts toJsonString send rest

/-- capture_exception from src/lib.rs: convert through to_event and
capture. -/
def Client.capture_exception (env : BuildEnv) (info : OsInfo)
    (semverParse : String → Option SemVer) (opts : ClientOptions)
    (toJsonString : InnerEvent → Except String String)
    (send : HttpRequest → Except String Unit)
    (exception : Exception) : CaptureResult :=
  Client.capture env semverParse opts toJsonString send
    (exception.to_event env info)

/-- capture_exception_batch from src/lib.rs: capture every exception in
order through capture_exception, returning at the first call that errs and
propagating a panic. -/
def Client.capture_exception_batch (env : BuildEnv) (info : OsInfo)
    (semverParse : String → Option SemVer) (opts : ClientOptions)
    (toJsonString : InnerEvent → Except String String)
    (send : HttpRequest → Except String Unit) :
    List Exception → CaptureResult
  | [] => .returned (.ok ())
  | exception :: rest =>
    match Client.capture_exception env info semverParse opts toJsonString
        send exception with
    | .panicked m => .panicked m
    | .returned (.error err) => .returned (.error err)
    | .returned (.ok _) =>
      Client.capture_exception_batch env info semverParse opts toJsonString
        send rest

/-- The default ingestion endpoint from src/lib.rs. -/
def API_ENDPOINT : String := "https://us.i.posthog.com/capture/"

/-- The From impl for ClientOptions from a string slice in src/lib.rs:
direct struct construction with the default endpoint, the given api key, a
fresh uuid as default distinct id (the uuid_v4 parameter models the
external uuid generator), panic capturing enabled and no callback.  The
construction is total: it cannot fail. -/
def ClientOptions.from_str (uuid_v4 : String) (api_key : String) :
    ClientOptions :=
  { api_endpoint := API_ENDPOINT
    api_key := api_key
    default_distinct_id := uuid_v4
    enable_panic_capturing := true
    on_panic_exception := none }

/-- The panic payload as the hook inspects it: a static string slice, an
owned String, or any other boxed value. -/
inductive PanicPayload where
  | staticStr (s : String)
  | ownedString (s : String)
  | other

/-- message_from_panic_info from src/lib.rs: downcast to a static string,
else to an owned String, else the fixed placeholder. -/
def message_from_panic_info : PanicPayload → String
  | .staticStr s => s
  | .ownedString s => s
  | .other => "Box<Any>"

/-- The Display impl and the derived Debug formatting of Error in
src/lib.rs, packaged as a Failure: Display writes the kind prefix followed
by the message, and the derived Debug writes the variant name applied to
the Debug-formatted message string. -/
def Error.toFailure : Error → Failure
  | .Connection msg =>
    { display := "Connection Error: " ++ msg
      debug := "Connection(" ++ rustDebugString msg ++ ")" }
  | .Serialization msg =>
    { display := "Serialization Error: " ++ msg
      debug := "Serialization(" ++ rustDebugString msg ++ ")" }
  | .Panic msg =>
    { display := "Panic: " ++ msg
      debug := "Panic(" ++ rustDebugString msg ++ ")" }

/-- exception_from_panic_info from src/lib.rs: build an Error of the Panic
kind from the payload message and hand it, as a generic failure, to
Exception construction. -/
def exception_from_panic_info (env : BuildEnv) (info : OsInfo)
    (payload : PanicPayload) (distinct_id : String) : Exception :=
  let msg := message_from_panic_info payload
  let error := Error.Panic msg
  Exception.new env info error.toFailure distinct_id

/-- Observable actions of one run of the installed panic hook, in execution
order. -/
inductive HookAction where
  | callbackInvoked
  | capturedException (exception : Exception)
  | nextHook

/-- The body of the closure that the client function in src/lib.rs
installs through panic set_hook when panic capturing
is enabled: derive an Exception from the payload and the default distinct
id, apply the configured user callback when present, attempt
capture_exception with the result value discarded (modelled by the
capture_exception_result parameter whose answer is dropped), and finally
invoke the previously installed hook.  The function returns the ordered
list of observable actions of the run. -/
def panic_hook_run (env : BuildEnv) (info : OsInfo) (opts : ClientOptions)
    (capture_exception_result : Exception → Except Error Unit)
    (payload : PanicPayload) : List HookAction :=
  let exception :=
    exception_from_panic_info env info payload opts.default_distinct_id
  match opts.on_panic_exception with
  | some cb =>
    let exception := cb exception
    let _ := capture_exception_result exception
    [HookAction.callbackInvoked,
     HookAction.capturedException exception,
     HookAction.nextHook]
  | none =>
    let _ := capture_exception_result exception
    [HookAction.capturedException exception, HookAction.nextHook]

/-- The type-name rule exactly as the specification words it, used only to
compare the specification wording with the code: split on the first
whitespace, opening parenthesis, opening brace or newline character and
take the leading token, trimmed. -/
def specDerivedType (f : Failure) : String :=
  if f.debug = rustDebugString f.display then "Error"
  else rustTrim (String.mk (f.debug.data.takeWhile
    (fun c => !(c.isWhitespace || c == '(' || c == '\x7b'))))

/-! Concrete fixtures used to instantiate the universally quantified
theorems below on sample inputs. -/

/-- Sample build environment with a release string that parses as 1.2.3. -/
def witnessEnv : BuildEnv :=
  { cargoPkgName := "posthog-rs", cargoPkgVersion := "1.2.3" }

/-- Sample host information. -/
def witnessInfo : OsInfo := { osType := "Linux", osVersion := "6.1" }

/-- Sample client options. -/
def witnessOpts : ClientOptions :=
  { api_endpoint := API_ENDPOINT
    api_key := "key"
    default_distinct_id := "d"
    enable_panic_capturing := true
    on_panic_exception := none }

/-- Sample semver parse outcome matching witnessEnv. -/
def witnessParse : String → Option SemVer :=
  fun _ => some { major := 1, minor := 2, patch := 3 }

/-- Sample event. -/
def witnessEvent : Event := Event.new witnessEnv witnessInfo "e" "d"

/-! Helper lemmas about the association-list model of the props map. -/

theorem lookupKV_insertKV_self (m : List (String × JValue)) (k : String)
    (v : JValue) : lookupKV (insertKV m k v) k = some v := by
  induction m with
  | nil => simp [insertKV, lookupKV]
  | cons hd tl ih =>
    obtain ⟨k1, v1⟩ := hd
    by_cases h : k1 = k
    · simp [insertKV, h, lookupKV]
    · simp [insertKV, h, lookupKV, ih]

theorem lookupKV_insertKV_ne (m : List (String × JValue)) (k : String)
    (v : JValue) (k' : String) (h : k' ≠ k) :
    lookupKV (insertKV m k v) k' = lookupKV m k' := by
  induction m with
  | nil => simp [insertKV, lookupKV, Ne.symm h]
  | cons hd tl ih =>
    obtain ⟨k1, v1⟩ := hd
    by_cases h1 : k1 = k
    · subst h1; simp [insertKV, lookupKV, Ne.symm h]
    · simp [insertKV, h1, lookupKV, ih]

/-- C2: for every Event and Exception and every key, when the user value
fails to serialize, insert_prop returns the Serialization error and hands
back the receiver completely unchanged, and when serialization succeeds it
returns Ok and stores the serialized value under the key, overwriting any
previous binding (last write wins, shown by the lookup equation holding for
an arbitrary starting props map). -/
theorem c2_insert_prop_behavior (e : Event) (x : Exception) (key msg : String)
    (v : JValue) :
    Event.insert_prop e key (.error msg) = (.error (.Serialization msg), e)
    ∧ (Event.insert_prop e key (.ok v)).1 = .ok ()
    ∧ lookupKV ((Event.insert_prop e key (.ok v)).2).properties.props key
        = some v
    ∧ Exception.insert_prop x key (.error msg)
        = (.error (.Serialization msg), x)
    ∧ (Exception.insert_prop x key (.ok v)).1 = .ok ()
    ∧ lookupKV ((Exception.insert_prop x key (.ok v)).2).properties.props key
        = some v :=
  ⟨rfl, rfl, lookupKV_insertKV_self e.properties.props key v, rfl, rfl,
    lookupKV_insertKV_self x.properties.props key v⟩

/-- C3: for every failure and distinct id, converting the fresh exception to
an event yields the exception event name, the given distinct id, the error
exception level, and an exception list holding exactly one descriptor whose
value is the display string of the failure and whose mechanism says handled
and not synthetic. -/
theorem c3_exception_to_event (env : BuildEnv) (info : OsInfo) (f : Failure)
    (d : String) :
    ((Exception.new env info f d).to_event env info).event = "$exception"
    ∧ ((Exception.new env info f d).to_event env info).properties.distinct_id
        = d
    ∧ ((Exception.new env info f d).to_event env
        info).properties.exception_level = some "error"
    ∧ ((Exception.new env info f d).to_event env
        info).properties.exception_list =
        some (.arr [.obj
          [("type", .str (Exception.parse_exception_type f)),
           ("value", .str f.display),
           ("mechanism", .obj
             [("handled", .bool true), ("synthetic", .bool false)])]]) :=
  ⟨rfl, rfl, rfl, rfl⟩

/-- C9: insert_prop, on Event and on Exception alike, mutates only the props
map: whether the serialization outcome is a failure or a success, the event
name, the timestamp, and every other Properties field are unchanged. -/
theorem c9_insert_prop_frame (e : Event) (x : Exception) (key : String)
    (r : Except String JValue) :
    ((Event.insert_prop e key r).2).event = e.event
    ∧ ((Event.insert_prop e key r).2).timestamp = e.timestamp
    ∧ ((Event.insert_prop e key r).2).properties.distinct_id
        = e.properties.distinct_id
    ∧ ((Event.insert_prop e key r).2).properties.lib = e.properties.lib
    ∧ ((Event.insert_prop e key r).2).properties.lib_version
        = e.properties.lib_version
    ∧ ((Event.insert_prop e key r).2).properties.os = e.properties.os
    ∧ ((Event.insert_prop e key r).2).properties.os_version
        = e.properties.os_version
    ∧ ((Event.insert_prop e key r).2).properties.exception_level
        = e.properties.exception_level
    ∧ ((Event.insert_prop e key r).2).properties.exception_list
        = e.properties.exception_list
    ∧ ((Exception.insert_prop x key r).2).timestamp = x.timestamp
    ∧ ((Exception.insert_prop x key r).2).properties.distinct_id
        = x.properties.distinct_id
    ∧ ((Exception.insert_prop x key r).2).properties.lib = x.properties.lib
    ∧ ((Exception.insert_prop x key r).2).properties.lib_version
        = x.properties.lib_version
    ∧ ((Exception.insert_prop x key r).2).properties.os = x.properties.os
    ∧ ((Exception.insert_prop x key r).2).properties.os_version
        = x.properties.os_version
    ∧ ((Exception.insert_prop x key r).2).properties.exception_level
        = x.properties.exception_level
    ∧ ((Exception.insert_prop x key r).2).properties.exception_list
        = x.properties.exception_list := by
  cases r <;>
    exact ⟨rfl, rfl, rfl, rfl, rfl, rfl, rfl, rfl, rfl, rfl, rfl, rfl, rfl,
      rfl, rfl, rfl, rfl⟩

/-- C10: events and exceptions are created with an absent timestamp, every
operation of the public surface (insert_prop on both, with_exception_level,
to_event) preserves the timestamp, and the transport envelope copies it, so
every captured record carries an absent timestamp. -/
theorem c10_timestamp_stays_absent (env : BuildEnv) (info : OsInfo)
    (semverParse : String → Option SemVer) (n d k : String) (f : Failure)
    (e : Event) (x : Exception) (key : String) (r : Except String JValue)
    (l : Option String) :
    (Event.new env info n d).timestamp = none
    ∧ (Exception.new env info f d).timestamp = none
    ∧ ((Event.insert_prop e key r).2).timestamp = e.timestamp
    ∧ ((Exception.insert_prop x key r).2).timestamp = x.timestamp
    ∧ (Exception.with_exception_level x l).timestamp = x.timestamp
    ∧ (Exception.to_event x env info).timestamp = x.timestamp
    ∧ (InnerEvent.new env semverParse e k).timestamp = e.timestamp := by
  cases r <;> exact ⟨rfl, rfl, rfl, rfl, rfl, rfl, rfl⟩

/-- C8 counterexample: the request timeout the client actually configures
on its transport is the hardcoded 800 millisecond constant of src/lib.rs,
not the 30 seconds the claim states (the live ClientOptions has no timeout
field at all). -/
theorem c8_counterexample :
    client_request_timeout_ms = 800
    ∧ client_request_timeout_ms ≠ 30 * 1000 :=
  ⟨rfl, by decide⟩

/-- C8 (amended): ClientOptions constructed from only an API key uses the
default ingestion endpoint, panic capturing enabled, a freshly generated
random uuid string (the generator parameter of the model) as the default
distinct id and no exception-enrichment callback, and the construction is
a total direct struct construction, so it never fails; the options carry
no timeout field and the client applies the hardcoded 800 millisecond
request timeout instead of a 30 second one. -/
theorem c8_client_options_defaults (uuid_v4 api_key : String) :
    (ClientOptions.from_str uuid_v4 api_key).api_endpoint = API_ENDPOINT
    ∧ (ClientOptions.from_str uuid_v4 api_key).api_key = api_key
    ∧ (ClientOptions.from_str uuid_v4 api_key).default_distinct_id = uuid_v4
    ∧ (ClientOptions.from_str uuid_v4 api_key).enable_panic_capturing = true
    ∧ (ClientOptions.from_str uuid_v4 api_key).on_panic_exception = none
    ∧ client_request_timeout_ms = 800 :=
  ⟨rfl, rfl, rfl, rfl, rfl, rfl⟩

/-- C6: one run of the installed panic hook produces a trace that does not
depend on the outcome of the capture attempt (every capture error is
discarded and the hook always completes), the trace optionally invokes the
callback, then attempts exactly one capture of the exception derived from
the panic payload and the default distinct id (as transformed by the
callback when one is configured), and invokes the previously installed hook
only afterwards, as the final action; the derived exception carries the
default distinct id and a single descriptor whose value is the panic prefix
followed by the payload message. -/
theorem c6_panic_hook_behavior (env : BuildEnv) (info : OsInfo)
    (opts : ClientOptions) (cap cap2 : Exception → Except Error Unit)
    (payload : PanicPayload) :
    (panic_hook_run env info opts cap payload
      = panic_hook_run env info opts cap2 payload)
    ∧ (panic_hook_run env info opts cap payload =
        match opts.on_panic_exception with
        | some cb =>
          [HookAction.callbackInvoked,
           HookAction.capturedException (cb (exception_from_panic_info env
             info payload opts.default_distinct_id)),
           HookAction.nextHook]
        | none =>
          [HookAction.capturedException (exception_from_panic_info env info
             payload opts.default_distinct_id),
           HookAction.nextHook])
    ∧ ((exception_from_panic_info env info payload
        opts.default_distinct_id).properties.distinct_id
        = opts.default_distinct_id)
    ∧ (∃ t, (exception_from_panic_info env info payload
        opts.default_distinct_id).properties.exception_list =
        some (.arr [.obj
          [("type", t),
           ("value", .str ("Panic: " ++ message_from_panic_info payload)),
           ("mechanism", .obj
             [("handled", .bool true), ("synthetic", .bool false)])]])) := by
  refine ⟨?_, ?_, rfl,
    ⟨.str (Exception.parse_exception_type
      (Error.toFailure
        (.Panic (message_from_panic_info payload)))), rfl⟩⟩
  · cases h : opts.on_panic_exception <;> simp [panic_hook_run, h]
  · cases h : opts.on_panic_exception <;> simp [panic_hook_run, h]

/-- C1 counterexample: with a release string that does not parse as a
semantic version, a numeric version key that the user inserted through
insert_prop survives into the transport envelope, so it is not true that
none of the three numeric keys are present in that case. -/
theorem c1_counterexample :
    ((fun _ => none : String → Option SemVer) "not-semver"
      = (none : Option SemVer))
    ∧ lookupKV (InnerEvent.new
        { cargoPkgName := "posthog-rs", cargoPkgVersion := "not-semver" }
        (fun _ => none)
        ((Event.insert_prop
          (Event.new
            { cargoPkgName := "posthog-rs", cargoPkgVersion := "not-semver" }
            { osType := "Linux", osVersion := "6.1" } "e" "d")
          "$lib_version__major" (.ok (.num 42))).2)
        "k").properties.props "$lib_version__major" = some (.num 42) :=
  ⟨rfl, rfl⟩

/-- The split worker always yields a first piece, namely the pending
accumulator followed by the longest prefix free of separator characters. -/
theorem splitAux_eq_cons (seps : List Char) (cs : List Char) :
    ∀ acc : List Char, ∃ rest,
      splitAux seps cs acc =
        (acc.reverse ++ cs.takeWhile (fun c => !(seps.contains c))) :: rest := by
  induction cs with
  | nil => intro acc; exact ⟨[], by simp [splitAux]⟩
  | cons c cs ih =>
    intro acc
    by_cases h : c ∈ seps
    · exact ⟨splitAux seps cs [], by
        simp [splitAux, h, List.takeWhile_cons]⟩
    · obtain ⟨rest, hrest⟩ := ih (c :: acc)
      exact ⟨rest, by
        simp [splitAux, h, hrest, List.takeWhile_cons, List.reverse_cons,
          List.append_assoc]⟩

/-- The first piece of a Rust char-slice split is the longest prefix that
contains no separator character. -/
theorem rustSplit_headI (seps : List Char) (s : String) :
    (rustSplit seps s).headI
      = String.mk (s.data.takeWhile (fun c => !(seps.contains c))) := by
  obtain ⟨rest, h⟩ := splitAux_eq_cons seps s.data []
  simp [rustSplit, h]

/-- C4 counterexample: first, a failure whose Debug output starts with the
identifier Error (the common shape of a derived Debug for a type named
Error) derives the type name Error although its Debug output differs from
the Debug formatting of its Display string, refuting the exactly-when
direction of the claim; second, a failure whose Debug output contains a tab
before any of the characters the code actually splits on derives a token
containing the tab, while splitting on the first whitespace character, as
the claim words it, would yield the shorter token. -/
theorem c4_counterexample :
    (Exception.parse_exception_type
        { display := "boom", debug := "Error(boom)" } = "Error"
      ∧ "Error(boom)" ≠ rustDebugString "boom")
    ∧ (Exception.parse_exception_type
        { display := "boom", debug := "Error\tmore(x)" } = "Error\tmore"
      ∧ specDerivedType { display := "boom", debug := "Error\tmore(x)" }
          = "Error"
      ∧ "Error\tmore" ≠ "Error") := by
  refine ⟨⟨?_, ?_⟩, ?_, ?_, ?_⟩ <;> decide

/-- C4 (amended): the derived exception type name is the literal Error when
the Debug representation of the failure equals the Debug formatting of its
Display string; otherwise it is the longest prefix of the Debug
representation containing no space, opening parenthesis, opening brace,
carriage return or line feed, trimmed of surrounding whitespace — a token
that may itself be the literal Error. -/
theorem c4_parse_exception_type_characterization (f : Failure) :
    Exception.parse_exception_type f =
      if f.debug = rustDebugString f.display then "Error"
      else rustTrim (String.mk (f.debug.data.takeWhile
        (fun c => !(splitChars.contains c)))) := by
  by_cases h : f.debug = rustDebugString f.display
  · simp [Exception.parse_exception_type, h]
  · simp [Exception.parse_exception_type, h, rustSplit_headI]

/-- C1 (amended): the transport envelope always stores the fixed library
name and the release string under their reserved keys, overwriting any
same-named key of the input event; when the release string parses as a
semantic version it also stores the three numeric components, overwriting
any same-named keys; when the release string does not parse, the envelope
construction inserts none of the three numeric keys, so their bindings are
exactly those of the input event (in particular a user-inserted binding
survives). -/
theorem c1_inner_event_lib_injection (env : BuildEnv)
    (semverParse : String → Option SemVer) (event : Event)
    (api_key : String) :
    lookupKV (InnerEvent.new env semverParse event api_key).properties.props
        "$lib_name" = some (.str "posthog-rs")
    ∧ lookupKV (InnerEvent.new env semverParse event api_key).properties.props
        "$lib_version" = some (.str env.cargoPkgVersion)
    ∧ (∀ v, semverParse env.cargoPkgVersion = some v →
        lookupKV (InnerEvent.new env semverParse event
            api_key).properties.props "$lib_version__major"
          = some (.num (v.major : Int))
        ∧ lookupKV (InnerEvent.new env semverParse event
            api_key).properties.props "$lib_version__minor"
          = some (.num (v.minor : Int))
        ∧ lookupKV (InnerEvent.new env semverParse event
            api_key).properties.props "$lib_version__patch"
          = some (.num (v.patch : Int)))
    ∧ (semverParse env.cargoPkgVersion = none →
        lookupKV (InnerEvent.new env semverParse event
            api_key).properties.props "$lib_version__major"
          = lookupKV event.properties.props "$lib_version__major"
        ∧ lookupKV (InnerEvent.new env semverParse event
            api_key).properties.props "$lib_version__minor"
          = lookupKV event.properties.props "$lib_version__minor"
        ∧ lookupKV (InnerEvent.new env semverParse event
            api_key).properties.props "$lib_version__patch"
          = lookupKV event.properties.props "$lib_version__patch") := by
  cases hsp : semverParse env.cargoPkgVersion with
  | none =>
    refine ⟨?_, ?_, ?_, ?_⟩
    · simp only [InnerEvent.new, hsp]
      rw [lookupKV_insertKV_ne _ _ _ _ (by decide), lookupKV_insertKV_self]
    · simp only [InnerEvent.new, hsp]
      rw [lookupKV_insertKV_self]
    · intro v hv; exact Option.noConfusion hv
    · intro _
      refine ⟨?_, ?_, ?_⟩ <;>
        (simp only [InnerEvent.new, hsp];
         rw [lookupKV_insertKV_ne _ _ _ _ (by decide),
           lookupKV_insertKV_ne _ _ _ _ (by decide)])
  | some v =>
    refine ⟨?_, ?_, ?_, ?_⟩
    · simp only [InnerEvent.new, hsp]
      rw [lookupKV_insertKV_ne _ _ _ _ (by decide),
        lookupKV_insertKV_ne _ _ _ _ (by decide),
        lookupKV_insertKV_ne _ _ _ _ (by decide),
        lookupKV_insertKV_ne _ _ _ _ (by decide), lookupKV_insertKV_self]
    · simp only [InnerEvent.new, hsp]
      rw [lookupKV_insertKV_ne _ _ _ _ (by decide),
        lookupKV_insertKV_ne _ _ _ _ (by decide),
        lookupKV_insertKV_ne _ _ _ _ (by decide), lookupKV_insertKV_self]
    · intro v' hv
      injection hv with h
      subst h
      refine ⟨?_, ?_, ?_⟩
      · simp only [InnerEvent.new, hsp]
        rw [lookupKV_insertKV_ne _ _ _ _ (by decide),
          lookupKV_insertKV_ne _ _ _ _ (by decide), lookupKV_insertKV_self]
      · simp only [InnerEvent.new, hsp]
        rw [lookupKV_insertKV_ne _ _ _ _ (by decide), lookupKV_insertKV_self]
      · simp only [InnerEvent.new, hsp]
        rw [lookupKV_insertKV_self]
    · intro h; exact Option.noConfusion h

/-- Witness of c1_inner_event_lib_injection at the sample fixtures: the
release string 1.2.3 parses, so the major component 1 and the library name
are found in the envelope props. -/
theorem c1_inner_event_lib_injection_witness :
    lookupKV (InnerEvent.new witnessEnv witnessParse witnessEvent
        "k").properties.props "$lib_version__major"
      = some (.num ((1 : Nat) : Int))
    ∧ lookupKV (InnerEvent.new witnessEnv witnessParse witnessEvent
        "k").properties.props "$lib_name" = some (.str "posthog-rs") := by
  have h := c1_inner_event_lib_injection witnessEnv witnessParse
    witnessEvent "k"
  exact ⟨(h.2.2.1 { major := 1, minor := 2, patch := 3 } rfl).1, h.1⟩

/-- C5 counterexample: at an input whose transport envelope fails to
serialize, the live capture panics through the expect call on the
serialization result instead of returning the Serialization error the
claim asserts. -/
theorem c5_capture_counterexample :
    Client.capture witnessEnv witnessParse witnessOpts
      (fun _ => .error "boom") (fun _ => .ok ()) witnessEvent
      = .panicked "unwrap here is safe"
    ∧ Client.capture witnessEnv witnessParse witnessOpts
        (fun _ => .error "boom") (fun _ => .ok ()) witnessEvent
      ≠ .returned (.error (.Serialization "boom")) := by
  have h0 : Client.capture witnessEnv witnessParse witnessOpts
      (fun _ => .error "boom") (fun _ => .ok ()) witnessEvent
      = .panicked "unwrap here is safe" := rfl
  exact ⟨h0, by rw [h0]; simp⟩

/-- C5 (amended): capture wraps the event in the transport envelope,
serializes it and posts it to the configured endpoint with the json
content type; it returns the Connection error exactly when the envelope
encodes and the transport send of that payload fails; when the envelope
fails to encode it panics through the expect call instead of returning an
error, and no capture call ever returns a Serialization error. -/
theorem c5_capture_live_behavior (env : BuildEnv)
    (semverParse : String → Option SemVer) (opts : ClientOptions)
    (toJsonString : InnerEvent → Except String String)
    (send : HttpRequest → Except String Unit) (event : Event) :
    (∀ m, toJsonString (InnerEvent.new env semverParse event opts.api_key)
        = .error m →
      Client.capture env semverParse opts toJsonString send event
        = .panicked "unwrap here is safe")
    ∧ (∀ p, toJsonString (InnerEvent.new env semverParse event opts.api_key)
        = .ok p →
      Client.capture env semverParse opts toJsonString send event =
        .returned (match send { url := opts.api_endpoint
                                contentType := "application/json"
                                body := p } with
          | .error m => .error (.Connection m)
          | .ok _ => .ok ()))
    ∧ ((∃ m, Client.capture env semverParse opts toJsonString send event
          = .returned (.error (.Connection m)))
        ↔ ∃ p m, toJsonString (InnerEvent.new env semverParse event
            opts.api_key) = .ok p
          ∧ send { url := opts.api_endpoint
                   contentType := "application/json"
                   body := p } = .error m)
    ∧ (∀ m, Client.capture env semverParse opts toJsonString send event
        ≠ .returned (.error (.Serialization m))) := by
  refine ⟨?_, ?_, ?_, ?_⟩
  · intro m hm; simp [Client.capture, hm]
  · intro p hp
    cases hsend : send { url := opts.api_endpoint
                         contentType := "application/json"
                         body := p } with
    | error m0 => simp [Client.capture, hp, hsend]
    | ok u => simp [Client.capture, hp, hsend]
  · cases hs : toJsonString (InnerEvent.new env semverParse event
        opts.api_key) with
    | error m0 => simp [Client.capture, hs]
    | ok p0 =>
      cases hsend : send { url := opts.api_endpoint
                           contentType := "application/json"
                           body := p0 } with
      | error m0 => simp [Client.capture, hs, hsend]
      | ok u => simp [Client.capture, hs, hsend]
  · intro m
    cases hs : toJsonString (InnerEvent.new env semverParse event
        opts.api_key) with
    | error m0 => simp [Client.capture, hs]
    | ok p0 =>
      cases hsend : send { url := opts.api_endpoint
                           contentType := "application/json"
                           body := p0 } with
      | error m0 => simp [Client.capture, hs, hsend]
      | ok u => simp [Client.capture, hs, hsend]

/-- Witness of c5_capture_live_behavior at the sample fixtures: with a
serializer that succeeds and a transport that fails, capture returns the
Connection error. -/
theorem c5_capture_live_behavior_witness :
    Client.capture witnessEnv witnessParse witnessOpts (fun _ => .ok "P")
      (fun _ => .error "down") witnessEvent
      = .returned (.error (.Connection "down")) := by
  exact (c5_capture_live_behavior witnessEnv witnessParse witnessOpts
    (fun _ => .ok "P") (fun _ => .error "down") witnessEvent).2.1 "P" rfl

/-- The live capture_exception_batch returns exactly what capture_batch of
the to_event images returns: both loop the same capture calls in the same
order. -/
theorem capture_exception_batch_eq_capture_batch (env : BuildEnv)
    (info : OsInfo) (semverParse : String → Option SemVer)
    (opts : ClientOptions)
    (toJsonString : InnerEvent → Except String String)
    (send : HttpRequest → Except String Unit)
    (exceptions : List Exception) :
    Client.capture_exception_batch env info semverParse opts toJsonString
        send exceptions
      = Client.capture_batch env semverParse opts toJsonString send
          (exceptions.map (fun x => x.to_event env info)) := by
  induction exceptions with
  | nil => rfl
  | cons x rest ih =>
    simp only [Client.capture_exception_batch, Client.capture_batch,
      List.map_cons, Client.capture_exception]
    cases h : Client.capture env semverParse opts toJsonString send
        (x.to_event env info) with
    | panicked m => rfl
    | returned r =>
      cases r with
      | error err => rfl
      | ok u => exact ih

/-- C7 counterexample: a batch containing an event whose envelope fails to
serialize panics through capture, refuting the never-panics part of the
claim (no error is returned on that path). -/
theorem c7_capture_batch_counterexample :
    Client.capture_batch witnessEnv witnessParse witnessOpts
      (fun _ => .error "boom") (fun _ => .ok ()) [witnessEvent]
      = .panicked "unwrap here is safe"
    ∧ Client.capture_batch witnessEnv witnessParse witnessOpts
        (fun _ => .error "boom") (fun _ => .ok ()) [witnessEvent]
      ≠ .returned (.error (.Serialization "boom")) := by
  have h0 : Client.capture_batch witnessEnv witnessParse witnessOpts
      (fun _ => .error "boom") (fun _ => .ok ()) [witnessEvent]
      = .panicked "unwrap here is safe" := rfl
  exact ⟨h0, by rw [h0]; simp⟩

/-- C7 (amended): capture_batch captures every event in order, one request
per event; an empty batch succeeds; a successful capture continues with
the rest; when an event is delivered but errs, the batch returns that
first error and does not attempt the remaining events (no error is
silently swallowed); when an event's envelope fails to serialize, capture
panics and the batch propagates the panic rather than returning an error;
capture_exception_batch converts every exception through to_event and
returns exactly what batch capture of the converted events returns. -/
theorem c7_capture_batch_live_behavior (env : BuildEnv) (info : OsInfo)
    (semverParse : String → Option SemVer) (opts : ClientOptions)
    (toJsonString : InnerEvent → Except String String)
    (send : HttpRequest → Except String Unit)
    (exceptions : List Exception) (e : Event) (rest : List Event) :
    Client.capture_exception_batch env info semverParse opts toJsonString
        send exceptions
      = Client.capture_batch env semverParse opts toJsonString send
          (exceptions.map (fun x => x.to_event env info))
    ∧ Client.capture_batch env semverParse opts toJsonString send []
        = .returned (.ok ())
    ∧ (Client.capture env semverParse opts toJsonString send e
        = .returned (.ok ()) →
      Client.capture_batch env semverParse opts toJsonString send (e :: rest)
        = Client.capture_batch env semverParse opts toJsonString send rest)
    ∧ (∀ err, Client.capture env semverParse opts toJsonString send e
        = .returned (.error err) →
      Client.capture_batch env semverParse opts toJsonString send (e :: rest)
        = .returned (.error err))
    ∧ (∀ m, Client.capture env semverParse opts toJsonString send e
        = .panicked m →
      Client.capture_batch env semverParse opts toJsonString send (e :: rest)
        = .panicked m) := by
  refine ⟨capture_exception_batch_eq_capture_batch env info semverParse opts
    toJsonString send exceptions, rfl, ?_, ?_, ?_⟩
  · intro h; simp [Client.capture_batch, h]
  · intro err h; simp [Client.capture_batch, h]
  · intro m h; simp [Client.capture_batch, h]

/-- Witness of c7_capture_batch_live_behavior at the sample fixtures: a
one-event batch whose delivery fails returns that first Connection
error. -/
theorem c7_capture_batch_live_behavior_witness :
    Client.capture_batch witnessEnv witnessParse witnessOpts
      (fun _ => .ok "P") (fun _ => .error "down") [witnessEvent]
      = .returned (.error (.Connection "down")) := by
  exact (c7_capture_batch_live_behavior witnessEnv witnessInfo witnessParse
    witnessOpts (fun _ => .ok "P") (fun _ => .error "down") [] witnessEvent
    []).2.2.2.1 (.Connection "down") rfl

end PosthogRs
